import Mathlib

/-!
Shallow embedding of `src/app.py`, a single-file Flask marketplace backend
(signup/login with JWT bearer tokens, product CRUD with ownership checks,
a cart, and a cart-to-order checkout), together with theorems settling the
frozen claims about it.

Modelling conventions:
* Database tables are Lean lists of row structures; `AUTO_INCREMENT` ids are
  modelled by explicit `next_*` counters standing for MySQL `lastrowid`.
* Prices and quantities are `Int` (the Python code passes numbers through
  `float(...)` / `int(...)` without further arithmetic, so no float rounding
  is ever observable in the modelled properties).
* Timestamps (`datetime.utcnow()`) are `Nat` seconds.
* External collaborators (the PyJWT library and werkzeug password hashing)
  are modelled by their contracts: a token records its payload and signing
  key, and decoding checks key equality then expiry; the password hash is an
  injective one-way tag checked by equality.
* Each Flask handler becomes a pure function from the database state (plus
  the request data) to a new database state and a typed response mirroring
  the handler's `jsonify(...), status` returns.
-/

namespace App

/-- A row of the `users` table: id, username, email, password hash. -/
structure User where
  id : Nat
  username : String
  email : String
  password : String
  deriving DecidableEq

/-- A row of the `products` table (columns as in `create_product`). -/
structure Product where
  id : Nat
  user_id : Nat
  title : String
  description : String
  price : Int
  category : String
  image : String
  deriving DecidableEq

/-- A row of the `cart` table: one (user, product) entry with a quantity. -/
structure CartEntry where
  id : Nat
  user_id : Nat
  product_id : Nat
  quantity : Int
  deriving DecidableEq

/-- A row of the `orders` table: owner and creation timestamp. -/
structure Order where
  id : Nat
  user_id : Nat
  created_at : Nat
  deriving DecidableEq

/-- A row of the `order_items` table: the snapshot taken at checkout. -/
structure OrderItem where
  order_id : Nat
  product_id : Nat
  quantity : Int
  price : Int
  deriving DecidableEq

/-- The whole MySQL database state.  The `next_*` fields model the
`AUTO_INCREMENT` counters (the value `cur.lastrowid` reports on insert). -/
structure DB where
  users : List User
  products : List Product
  cart : List CartEntry
  orders : List Order
  order_items : List OrderItem
  next_user_id : Nat
  next_product_id : Nat
  next_cart_id : Nat
  next_order_id : Nat
  deriving DecidableEq

/-! ### Token service (`create_token`, the `jwt.decode` call in `jwt_required`)

A PyJWT token is opaque; what `app.py` relies on is that decoding with the
same key before expiry returns the encoded payload, decoding past expiry
raises `ExpiredSignatureError`, and decoding with a different key raises a
generic exception.  We model a token as its payload plus the signing key. -/

/-- A signed token: payload `{user_id, exp}` plus the key it was signed with. -/
structure Token where
  user_id : Nat
  exp : Nat
  key : String
  deriving DecidableEq

/-- `create_token` in `app.py`: payload user id, expiry `now + JWT_EXPIRE_HOURS`
(here `expireHours * 3600` seconds), signed with the process-wide secret. -/
def create_token (user_id : Nat) (now : Nat) (expireHours : Nat) (secret : String) : Token :=
  { user_id := user_id, exp := now + expireHours * 3600, key := secret }

/-- Outcome of the `jwt.decode` + `int(payload.get('user_id'))` block inside
`jwt_required` (lines 39-45): the authenticated user id, or the 401 error. -/
inductive DecodeOutcome where
  | ok (user_id : Nat)
  | expired
  | invalid
  deriving DecidableEq

/-- The token verification performed by `jwt_required`: signature (key) check,
then expiry check, then the user id claim is extracted. -/
def verify_token (t : Token) (secret : String) (now : Nat) : DecodeOutcome :=
  if t.key = secret then
    if t.exp ≤ now then .expired else .ok t.user_id
  else .invalid

/-! ### Python string helpers

`str.strip()` and `str.lower()` are modelled as executable character-list
operations (whitespace trimming on both ends; ASCII lowercasing), so that
concrete instances reduce inside the kernel. -/

/-- Model of Python `str.strip()`. -/
def py_strip (s : String) : String :=
  ⟨((s.data.dropWhile Char.isWhitespace).reverse.dropWhile Char.isWhitespace).reverse⟩

/-- Model of Python `str.lower()`. -/
def py_lower (s : String) : String :=
  ⟨s.data.map Char.toLower⟩

/-- The `.strip().lower()` email normalization used by signup/login. -/
def normalize_email (s : String) : String :=
  py_lower (py_strip s)

/-! ### Password hashing (werkzeug, an external capability) -/

/-- Model of werkzeug `generate_password_hash`: an injective one-way tag. -/
def generate_password_hash (password : String) : String :=
  "pbkdf2:" ++ password

/-- Model of werkzeug `check_password_hash`. -/
def check_password_hash (stored password : String) : Bool :=
  stored == generate_password_hash password

/-! ### Signup and login -/

/-- Response of the `/signup` handler. -/
inductive SignupResp where
  | missingFields
  | emailTaken
  | created (token : Token) (id : Nat) (username email : String)
  deriving DecidableEq

/-- HTTP status code of a `SignupResp`. -/
def SignupResp.status : SignupResp → Nat
  | .missingFields => 400
  | .emailTaken => 400
  | .created _ _ _ _ => 201

/-- The `/signup` handler: trims username, normalizes email to lowercase,
validates non-emptiness, rejects an already registered email, otherwise
inserts the user with a hashed password and returns a fresh token. -/
def signup (db : DB) (username email password : String) (secret : String)
    (now expireHours : Nat) : DB × SignupResp :=
  let username := py_strip username
  let email := normalize_email email
  if username = "" ∨ email = "" ∨ password = "" then (db, .missingFields)
  else if (db.users.find? (fun u => u.email == email)).isSome then (db, .emailTaken)
  else
    let uid := db.next_user_id
    let user : User := { id := uid, username := username, email := email
                         password := generate_password_hash password }
    ({ db with users := db.users ++ [user], next_user_id := uid + 1 },
     .created (create_token uid now expireHours secret) uid username email)

/-- Response of the `/login` handler. -/
inductive LoginResp where
  | missingFields
  | invalidCredentials
  | ok (token : Token) (id : Nat) (username email : String)
  deriving DecidableEq

/-- HTTP status code of a `LoginResp`. -/
def LoginResp.status : LoginResp → Nat
  | .missingFields => 400
  | .invalidCredentials => 401
  | .ok _ _ _ _ => 200

/-- The `/login` handler: normalizes email, validates non-emptiness, looks the
user up by email and checks the password hash; `invalidCredentials` is
returned both when no user matches and when the hash check fails. -/
def login (db : DB) (email password : String) (secret : String)
    (now expireHours : Nat) : LoginResp :=
  let email := normalize_email email
  if email = "" ∨ password = "" then .missingFields
  else
    match db.users.find? (fun u => u.email == email) with
    | none => .invalidCredentials
    | some user =>
        if check_password_hash user.password password then
          .ok (create_token user.id now expireHours secret) user.id user.username user.email
        else .invalidCredentials

/-! ### Products -/

/-- Request body of `POST /products`.  Absent `title`/`description`/
`category`/`image` default to `""` (Python `data.get(key, '')`); `price` is
`Option` because the handler distinguishes `price is not None`.  The body may
also carry a client-supplied `user_id`, which the handler never reads. -/
structure CreateBody where
  title : String
  description : String
  price : Option Int
  category : String
  image : String
  user_id : Option Nat
  deriving DecidableEq

/-- Response of `POST /products`. -/
inductive CreateResp where
  | missingFields
  | created (id : Nat)
  deriving DecidableEq

/-- HTTP status code of a `CreateResp`. -/
def CreateResp.status : CreateResp → Nat
  | .missingFields => 400
  | .created _ => 201

/-- The `create_product` handler: trims the string fields, requires a
non-empty title and a present price, then inserts the row with `user_id`
taken from the authenticated user (`current_user`), storing `float(price)`
as supplied — the client-supplied `user_id` field is ignored. -/
def create_product (db : DB) (current_user : Nat) (b : CreateBody) : DB × CreateResp :=
  let title := py_strip b.title
  match b.price with
  | none => (db, .missingFields)
  | some price =>
      if title = "" then (db, .missingFields)
      else
        let pid := db.next_product_id
        let prod : Product :=
          { id := pid, user_id := current_user, title := title
            description := py_strip b.description, price := price
            category := py_strip b.category, image := py_strip b.image }
        ({ db with products := db.products ++ [prod], next_product_id := pid + 1 },
         .created pid)

/-- Request body of `PUT /products/<pid>`: each field is present or absent
(`data.get(key)` returning `None` for absent). -/
structure UpdateBody where
  title : Option String
  description : Option String
  price : Option Int
  category : Option String
  image : Option String
  deriving DecidableEq

/-- The body with no field present. -/
def UpdateBody.empty : UpdateBody :=
  { title := none, description := none, price := none, category := none, image := none }

/-- Whether no field of the body is present (the `if not fields` check). -/
def UpdateBody.isEmpty (b : UpdateBody) : Bool :=
  b.title == none && b.description == none && b.price == none &&
    b.category == none && b.image == none

/-- The `UPDATE products SET ...` row transformation: each present field
overwrites the column, each absent field leaves it unchanged. -/
def applyUpdate (p : Product) (b : UpdateBody) : Product :=
  { p with title := b.title.getD p.title
           description := b.description.getD p.description
           price := b.price.getD p.price
           category := b.category.getD p.category
           image := b.image.getD p.image }

/-- Response of `PUT /products/<pid>`. -/
inductive UpdateResp where
  | notFound
  | forbidden
  | nothingToUpdate
  | updated
  deriving DecidableEq

/-- HTTP status code of an `UpdateResp`. -/
def UpdateResp.status : UpdateResp → Nat
  | .notFound => 404
  | .forbidden => 403
  | .nothingToUpdate => 400
  | .updated => 200

/-- The `update_product` handler: loads the product's owner (`NotFound` when
missing), rejects a non-owner with `Forbidden`, rejects an empty field set
with 400, otherwise applies exactly the present fields to the row. -/
def update_product (db : DB) (current_user pid : Nat) (b : UpdateBody) : DB × UpdateResp :=
  match db.products.find? (fun p => p.id == pid) with
  | none => (db, .notFound)
  | some owner =>
      if owner.user_id ≠ current_user then (db, .forbidden)
      else if b.isEmpty then (db, .nothingToUpdate)
      else
        ({ db with products :=
             db.products.map (fun p => if p.id == pid then applyUpdate p b else p) },
         .updated)

/-- Response of `DELETE /products/<pid>`. -/
inductive DeleteResp where
  | notFound
  | forbidden
  | deleted
  deriving DecidableEq

/-- HTTP status code of a `DeleteResp`. -/
def DeleteResp.status : DeleteResp → Nat
  | .notFound => 404
  | .forbidden => 403
  | .deleted => 200

/-- The `delete_product` handler: same owner lookup as update, then
`DELETE FROM products WHERE id=pid`.  Cart rows and order items referencing
the product are NOT touched. -/
def delete_product (db : DB) (current_user pid : Nat) : DB × DeleteResp :=
  match db.products.find? (fun p => p.id == pid) with
  | none => (db, .notFound)
  | some owner =>
      if owner.user_id ≠ current_user then (db, .forbidden)
      else
        ({ db with products := db.products.filter (fun p => !(p.id == pid)) },
         .deleted)

/-! ### Cart -/

/-- Response of `POST /cart`. -/
inductive CartAddResp where
  | productRequired
  | added
  deriving DecidableEq

/-- HTTP status code of a `CartAddResp`. -/
def CartAddResp.status : CartAddResp → Nat
  | .productRequired => 400
  | .added => 200

/-- The `add_to_cart` handler.  `product_id` is `Option` (absent body field);
Python `if not product_id` also rejects id 0.  If a row for
`(current_user, product_id)` exists, its quantity is incremented by the given
amount (`UPDATE cart SET quantity = quantity + q WHERE id = existing_id`);
otherwise a new row is inserted.  The quantity is `int(...)`-coerced, with no
sign or bound check. -/
def add_to_cart (db : DB) (current_user : Nat) (product_id : Option Nat)
    (quantity : Int) : DB × CartAddResp :=
  match product_id with
  | none => (db, .productRequired)
  | some pid =>
      if pid = 0 then (db, .productRequired)
      else
        match db.cart.find? (fun c => c.user_id == current_user && c.product_id == pid) with
        | some existing =>
            ({ db with cart := db.cart.map (fun c =>
                 if c.id == existing.id then { c with quantity := c.quantity + quantity }
                 else c) },
             .added)
        | none =>
            let row : CartEntry :=
              { id := db.next_cart_id, user_id := current_user
                product_id := pid, quantity := quantity }
            ({ db with cart := db.cart ++ [row], next_cart_id := db.next_cart_id + 1 },
             .added)

/-- A row of the `GET /cart` response (cart joined with products). -/
structure CartViewRow where
  cart_id : Nat
  product_id : Nat
  title : String
  price : Int
  image : String
  quantity : Int
  deriving DecidableEq

/-- The `view_cart` handler: the user's cart rows inner-joined with the
`products` table (a cart row whose product no longer exists yields nothing),
reporting the product's current price. -/
def view_cart (db : DB) (current_user : Nat) : List CartViewRow :=
  (db.cart.filter (fun c => c.user_id == current_user)).filterMap (fun c =>
    (db.products.find? (fun p => p.id == c.product_id)).map (fun p =>
      { cart_id := c.id, product_id := p.id, title := p.title
        price := p.price, image := p.image, quantity := c.quantity }))

/-! ### Checkout -/

/-- A row of checkout's opening query: the user's cart inner-joined with
products, carrying product id, cart quantity and the current price. -/
structure CartJoinRow where
  product_id : Nat
  quantity : Int
  price : Int
  deriving DecidableEq

/-- The `SELECT c.product_id, c.quantity, p.price FROM cart c JOIN products p
ON c.product_id = p.id WHERE c.user_id = u` query at the top of `checkout`. -/
def cartJoin (db : DB) (u : Nat) : List CartJoinRow :=
  (db.cart.filter (fun c => c.user_id == u)).filterMap (fun c =>
    (db.products.find? (fun p => p.id == c.product_id)).map (fun p =>
      { product_id := c.product_id, quantity := c.quantity, price := p.price }))

/-- Response of `POST /checkout`. -/
inductive CheckoutResp where
  | cartEmpty
  | serverError
  | complete (order_id : Nat)
  deriving DecidableEq

/-- HTTP status code of a `CheckoutResp`. -/
def CheckoutResp.status : CheckoutResp → Nat
  | .cartEmpty => 400
  | .serverError => 500
  | .complete _ => 200

/-- Whether the write numbered `k` succeeds under failure plan `failAt`
(`some j` injects an exception at the j-th write of the transaction). -/
def stepOk (failAt : Option Nat) (k : Nat) : Bool :=
  match failAt with
  | none => true
  | some j => !(j == k)

/-- The `order_items` row built for one cart row at checkout: product id and
quantity from the cart, the price snapshotted from the join. -/
def mkOrderItem (oid : Nat) (it : CartJoinRow) : OrderItem :=
  { order_id := oid, product_id := it.product_id
    quantity := it.quantity, price := it.price }

/-- The `INSERT INTO order_items ...` loop of `checkout`, acting on the
connection's uncommitted working state `work`.  Writes are numbered from `k`;
returns `none` when the failure plan raises partway (the `except` path),
otherwise the final working state and the next write number. -/
def insertItems (work : DB) (oid : Nat) (items : List CartJoinRow)
    (failAt : Option Nat) (k : Nat) : Option (DB × Nat) :=
  match items with
  | [] => some (work, k)
  | it :: rest =>
      if stepOk failAt k then
        insertItems
          { work with order_items := work.order_items ++ [mkOrderItem oid it] }
          oid rest failAt (k + 1)
      else none

/-- The `checkout` handler run with an injected failure plan.  The MySQL
connection has autocommit off, so every write before `conn.commit()` lives in
the connection's transaction: when an exception is raised at any write (or at
the commit itself), the handler returns the 500 response, the connection is
closed in `finally`, and the uncommitted transaction is rolled back — the
persisted state stays `db`.  Writes: 0 = `INSERT INTO orders`,
1..n = the `order_items` inserts, n+1 = `DELETE FROM cart`, n+2 = commit. -/
def checkoutRun (db : DB) (u : Nat) (now : Nat) (failAt : Option Nat) :
    DB × CheckoutResp :=
  let items := cartJoin db u
  if items.isEmpty then (db, .cartEmpty)
  else
    if stepOk failAt 0 then
      let oid := db.next_order_id
      let work1 : DB :=
        { db with orders := db.orders ++ [{ id := oid, user_id := u, created_at := now }]
                  next_order_id := oid + 1 }
      match insertItems work1 oid items failAt 1 with
      | none => (db, .serverError)
      | some (work2, k) =>
          if stepOk failAt k then
            let work3 : DB :=
              { work2 with cart := work2.cart.filter (fun c => !(c.user_id == u)) }
            if stepOk failAt (k + 1) then (work3, .complete oid)
            else (db, .serverError)
          else (db, .serverError)
    else (db, .serverError)

/-- The `checkout` handler on the normal (exception-free) path. -/
def checkout (db : DB) (u : Nat) (now : Nat) : DB × CheckoutResp :=
  checkoutRun db u now none

/-! ### Purchase history -/

/-- A row of the `GET /purchases` response. -/
structure PurchaseRow where
  order_id : Nat
  created_at : Nat
  product_id : Nat
  title : String
  image : String
  quantity : Int
  price : Int
  deriving DecidableEq

/-- One order's contribution to the `purchases` join: its order items
inner-joined with the `products` table (an item whose product was deleted
yields nothing), annotated with the snapshotted quantity and price. -/
def orderRows (db : DB) (o : Order) : List PurchaseRow :=
  (db.order_items.filter (fun oi => oi.order_id == o.id)).filterMap (fun oi =>
    (db.products.find? (fun p => p.id == oi.product_id)).map (fun p =>
      { order_id := o.id, created_at := o.created_at, product_id := oi.product_id
        title := p.title, image := p.image
        quantity := oi.quantity, price := oi.price }))

/-- The `purchases` handler: the user's orders, newest `created_at` first
(`ORDER BY o.created_at DESC`), each expanded into its joined order items. -/
def purchases (db : DB) (u : Nat) : List PurchaseRow :=
  ((db.orders.filter (fun o => o.user_id == u)).mergeSort
      (fun a b => b.created_at ≤ a.created_at)).flatMap (orderRows db)

/-- Cart-table invariants maintained by `add_to_cart`: every row id is below
the auto-increment counter, row ids are distinct, and there is at most one
row per (user, product) pair. -/
def CartOk (db : DB) : Prop :=
  (∀ c ∈ db.cart, c.id < db.next_cart_id) ∧
  (db.cart.map CartEntry.id).Nodup ∧
  db.cart.Pairwise (fun a b => ¬(a.user_id = b.user_id ∧ a.product_id = b.product_id))

/-! ### Concrete states used by witnesses and counterexamples -/

/-- A fully empty database. -/
def dbEmpty : DB :=
  { users := [], products := [], cart := [], orders := [], order_items := []
    next_user_id := 1, next_product_id := 1, next_cart_id := 1, next_order_id := 1 }

/-- Concrete database for C1/C2/C10: product 10 exists (price 5), user 1's
cart holds a valid row for product 10 and an orphaned row for the
no-longer-existing product 99. -/
def dbC2 : DB :=
  { users := []
    products := [{ id := 10, user_id := 2, title := "t", description := "d"
                   price := 5, category := "", image := "" }]
    cart := [{ id := 1, user_id := 1, product_id := 10, quantity := 2 },
             { id := 2, user_id := 1, product_id := 99, quantity := 1 }]
    orders := [], order_items := []
    next_user_id := 1, next_product_id := 11, next_cart_id := 3, next_order_id := 1 }

/-- Concrete database whose single cart row for user 1 is orphaned. -/
def dbC10 : DB :=
  { users := [], products := []
    cart := [{ id := 1, user_id := 1, product_id := 99, quantity := 4 }]
    orders := [], order_items := []
    next_user_id := 1, next_product_id := 1, next_cart_id := 2, next_order_id := 1 }

/-- Concrete database for C9: user 1 once bought product 99 (order 1,
snapshot price 5), and product 99 still exists. -/
def dbC9 : DB :=
  { users := []
    products := [{ id := 99, user_id := 1, title := "t", description := ""
                   price := 5, category := "", image := "" }]
    cart := []
    orders := [{ id := 1, user_id := 1, created_at := 100 }]
    order_items := [{ order_id := 1, product_id := 99, quantity := 2, price := 5 }]
    next_user_id := 2, next_product_id := 100, next_cart_id := 1, next_order_id := 2 }

/-- Concrete database with one cart row (user 1, product 10, quantity 5). -/
def dbC5e : DB :=
  { users := [], products := [], orders := [], order_items := []
    cart := [{ id := 1, user_id := 1, product_id := 10, quantity := 5 }]
    next_user_id := 1, next_product_id := 1, next_cart_id := 2, next_order_id := 1 }

/-- Concrete database for the C3 witness: no users yet. -/
def dbC3 : DB :=
  { users := [], products := [], cart := [], orders := [], order_items := []
    next_user_id := 7, next_product_id := 1, next_cart_id := 1, next_order_id := 1 }

/-- Concrete database for the C6 witness: one registered user. -/
def dbC6 : DB :=
  { users := [{ id := 1, username := "bob", email := "b@c.d"
                password := "pbkdf2:pw" }]
    products := [], cart := [], orders := [], order_items := []
    next_user_id := 2, next_product_id := 1, next_cart_id := 1, next_order_id := 1 }

/-- The product used by the C4 and C8 instances, owned by user 7. -/
def prodC4 : Product :=
  { id := 1, user_id := 7, title := "t", description := "d", price := 5
    category := "c", image := "i" }

/-- Concrete database for C4/C8: one product owned by user 7. -/
def dbC4 : DB :=
  { users := [], products := [prodC4], cart := [], orders := [], order_items := []
    next_user_id := 1, next_product_id := 2, next_cart_id := 1, next_order_id := 1 }

/-- Concrete empty database for the C7 instances. -/
def dbC7 : DB :=
  { users := [], products := [], cart := [], orders := [], order_items := []
    next_user_id := 1, next_product_id := 1, next_cart_id := 1, next_order_id := 1 }

/-- A valid create-product body carrying a client-supplied `user_id`. -/
def bodyC7 : CreateBody :=
  { title := "x", description := "", price := some 5, category := ""
    image := "", user_id := some 42 }

/-- An update body supplying only `price`. -/
def bodyC8 : UpdateBody :=
  { title := none, description := none, price := some 9, category := none
    image := none }

/-! ## Claims -/

/-- C3: for every user id, verifying a token freshly issued for that user id
(before the configured TTL elapses, with the same process-wide signing key)
yields exactly that user id; in particular, signup followed by login with the
same credentials yields a token whose verified user id equals the id returned
by signup. -/
theorem token_identity_roundtrip (db : DB) (username email password secret : String)
    (now1 now2 dt1 dt2 expireHours : Nat)
    (hu : py_strip username ≠ "") (he : normalize_email email ≠ "")
    (hp : password ≠ "")
    (hfresh : ∀ u ∈ db.users, u.email ≠ normalize_email email)
    (hdt1 : dt1 < expireHours * 3600) (hdt2 : dt2 < expireHours * 3600) :
    (∀ uid now dt, dt < expireHours * 3600 →
        verify_token (create_token uid now expireHours secret) secret (now + dt) =
          .ok uid) ∧
    ∃ db2 t1,
      signup db username email password secret now1 expireHours =
        (db2, .created t1 db.next_user_id (py_strip username) (normalize_email email)) ∧
      verify_token t1 secret (now1 + dt1) = .ok db.next_user_id ∧
      ∃ t2 un em,
        login db2 email password secret now2 expireHours =
          .ok t2 db.next_user_id un em ∧
        verify_token t2 secret (now2 + dt2) = .ok db.next_user_id := by
  have hverify : ∀ uid now dt, dt < expireHours * 3600 →
      verify_token (create_token uid now expireHours secret) secret (now + dt) =
        .ok uid := by
    intro uid now dt hdt
    have h2 : ¬ (now + expireHours * 3600 ≤ now + dt) := by omega
    simp [create_token, verify_token, h2]
  refine ⟨hverify, ?_⟩
  have hfind : db.users.find? (fun u => u.email == normalize_email email) = none :=
    List.find?_eq_none.mpr (fun u hu2 => by
      simpa using hfresh u hu2)
  simp only [signup]
  rw [if_neg (by simp [hu, he, hp]), hfind]
  simp only [Option.isSome_none, Bool.false_eq_true, if_false]
  refine ⟨_, _, rfl, hverify _ _ _ hdt1, ?_⟩
  simp only [login]
  rw [if_neg (by simp [he, hp])]
  rw [List.find?_append, hfind]
  rw [List.find?_cons_of_pos _ (by simp)]
  simp only [Option.none_or, check_password_hash, generate_password_hash,
    beq_self_eq_true, if_pos]
  exact ⟨_, _, _, rfl, hverify _ _ _ hdt2⟩

/-- Witness for C3 at a concrete signup/login exchange. -/
theorem token_identity_roundtrip_witness :
    (py_strip " alice " ≠ "") ∧ (normalize_email " A@B.c " ≠ "") ∧
    ((∀ uid now dt, dt < 24 * 3600 →
        verify_token (create_token uid now 24 "k") "k" (now + dt) = .ok uid) ∧
      ∃ db2 t1,
        signup dbC3 " alice " " A@B.c " "pw" "k" 0 24 =
          (db2, .created t1 dbC3.next_user_id (py_strip " alice ")
            (normalize_email " A@B.c ")) ∧
        verify_token t1 "k" (0 + 5) = .ok dbC3.next_user_id ∧
        ∃ t2 un em,
          login db2 " A@B.c " "pw" "k" 10 24 = .ok t2 dbC3.next_user_id un em ∧
          verify_token t2 "k" (10 + 6) = .ok dbC3.next_user_id) :=
  ⟨by decide, by decide,
    token_identity_roundtrip dbC3 " alice " " A@B.c " "pw" "k" 0 10 5 6 24
      (by decide) (by decide) (by decide) (by intro u hu; cases hu)
      (by decide) (by decide)⟩

/-- C6: a login whose email matches no user and a login whose email matches a
user but whose password fails the hash check return the one same
`invalidCredentials` response, surfaced as HTTP 401. -/
theorem login_uniform_invalid (db : DB) (email password secret : String)
    (now expireHours : Nat)
    (he : normalize_email email ≠ "") (hp : password ≠ "") :
    (db.users.find? (fun u => u.email == normalize_email email) = none →
        login db email password secret now expireHours = .invalidCredentials) ∧
    (∀ u, db.users.find? (fun u2 => u2.email == normalize_email email) = some u →
        check_password_hash u.password password = false →
        login db email password secret now expireHours = .invalidCredentials) ∧
    LoginResp.status .invalidCredentials = 401 := by
  refine ⟨?_, ?_, rfl⟩
  · intro hnone
    simp only [login]
    rw [if_neg (by simp [he, hp]), hnone]
  · intro u hsome hcheck
    simp only [login]
    rw [if_neg (by simp [he, hp]), hsome]
    simp [hcheck]

/-- Witness for C6: the unknown-email case and the wrong-password case both
produce the same `invalidCredentials` response. -/
theorem login_uniform_invalid_witness :
    login dbC6 "x@y.z" "pw" "k" 0 24 = .invalidCredentials ∧
    login dbC6 "b@c.d" "wrong" "k" 0 24 = .invalidCredentials :=
  ⟨(login_uniform_invalid dbC6 "x@y.z" "pw" "k" 0 24 (by decide) (by decide)).1
      (by decide),
   (login_uniform_invalid dbC6 "b@c.d" "wrong" "k" 0 24 (by decide) (by decide)).2.1
      { id := 1, username := "bob", email := "b@c.d", password := "pbkdf2:pw" }
      (by decide) (by decide)⟩

/-- `applyUpdate` never changes the product id. -/
theorem applyUpdate_id (p : Product) (b : UpdateBody) : (applyUpdate p b).id = p.id :=
  rfl

/-- The `UPDATE ... WHERE id = pid` map rewrites the first row found for `pid`
to its updated value. -/
theorem find?_map_applyUpdate (l : List Product) (pid : Nat) (b : UpdateBody)
    (prod : Product) (h : l.find? (fun p => p.id == pid) = some prod) :
    (l.map (fun p => if p.id == pid then applyUpdate p b else p)).find?
      (fun p => p.id == pid) = some (applyUpdate prod b) := by
  induction l with
  | nil => simp at h
  | cons a l ih =>
      by_cases ha : (a.id == pid) = true
      · rw [List.find?_cons_of_pos (p := fun x : Product => x.id == pid) _ ha] at h
        cases h
        simp only [List.map_cons, if_pos ha]
        exact List.find?_cons_of_pos (p := fun x : Product => x.id == pid) _ ha
      · rw [List.find?_cons_of_neg (p := fun x : Product => x.id == pid) _ ha] at h
        simp only [List.map_cons, if_neg ha]
        rw [List.find?_cons_of_neg (p := fun x : Product => x.id == pid) _ ha]
        exact ih h

/-- The `UPDATE ... WHERE id = pid` map leaves every row with a different id
untouched. -/
theorem filter_map_applyUpdate (l : List Product) (pid : Nat) (b : UpdateBody) :
    (l.map (fun p => if p.id == pid then applyUpdate p b else p)).filter
      (fun p => !(p.id == pid)) = l.filter (fun p => !(p.id == pid)) := by
  induction l with
  | nil => rfl
  | cons a l ih =>
      by_cases ha : (a.id == pid) = true
      · simp only [List.map_cons, List.filter_cons, ha, eq_self_iff_true, if_true,
          applyUpdate_id, Bool.not_true, Bool.false_eq_true, if_false]
        exact ih
      · have ha2 : (a.id == pid) = false := by simpa using ha
        simp only [List.map_cons, List.filter_cons, ha2, Bool.false_eq_true,
          if_false, Bool.not_false, eq_self_iff_true, if_true]
        rw [ih]

/-- C4 (amended): a product update or delete fails with `NotFound` when no
product has the given id, fails with `Forbidden` (changing nothing) when the
stored owner differs from the authenticated requester, and when the requester
is the owner a delete succeeds, and an update succeeds provided at least one
field is supplied. -/
theorem ownership_enforced (db : DB) (u pid : Nat) (b : UpdateBody) :
    (db.products.find? (fun p => p.id == pid) = none →
        update_product db u pid b = (db, .notFound) ∧
        delete_product db u pid = (db, .notFound)) ∧
    (∀ prod, db.products.find? (fun p => p.id == pid) = some prod →
        prod.user_id ≠ u →
        update_product db u pid b = (db, .forbidden) ∧
        delete_product db u pid = (db, .forbidden)) ∧
    (∀ prod, db.products.find? (fun p => p.id == pid) = some prod →
        prod.user_id = u →
        (delete_product db u pid).2 = .deleted ∧
        (b.isEmpty = false → (update_product db u pid b).2 = .updated)) := by
  refine ⟨?_, ?_, ?_⟩
  · intro hnone
    constructor
    · simp only [update_product, hnone]
    · simp only [delete_product, hnone]
  · intro prod hsome hne
    constructor
    · simp only [update_product, hsome]
      simp [hne]
    · simp only [delete_product, hsome]
      simp [hne]
  · intro prod hsome howner
    constructor
    · simp only [delete_product, hsome]
      simp [howner]
    · intro hb
      simp only [update_product, hsome]
      simp [howner, hb]

/-- Counterexample to C4 as stated: user 7 owns product 1, yet the owner's
update request supplying no fields does not succeed — it fails with the 400
`nothing to update` response. -/
theorem ownership_owner_empty_update_cx :
    update_product dbC4 7 1 UpdateBody.empty = (dbC4, .nothingToUpdate) ∧
    UpdateResp.status .nothingToUpdate = 400 := by
  decide

/-- Witness for C4 covering all three branches at concrete inputs. -/
theorem ownership_enforced_witness :
    update_product dbC4 8 2 bodyC8 = (dbC4, .notFound) ∧
    update_product dbC4 8 1 bodyC8 = (dbC4, .forbidden) ∧
    delete_product dbC4 8 1 = (dbC4, .forbidden) ∧
    (delete_product dbC4 7 1).2 = .deleted ∧
    (update_product dbC4 7 1 bodyC8).2 = .updated :=
  ⟨((ownership_enforced dbC4 8 2 bodyC8).1 (by decide)).1,
   ((ownership_enforced dbC4 8 1 bodyC8).2.1 prodC4 (by decide) (by decide)).1,
   ((ownership_enforced dbC4 8 1 bodyC8).2.1 prodC4 (by decide) (by decide)).2,
   ((ownership_enforced dbC4 7 1 bodyC8).2.2 prodC4 (by decide) (by decide)).1,
   ((ownership_enforced dbC4 7 1 bodyC8).2.2 prodC4 (by decide) (by decide)).2
     (by decide)⟩

/-- C8: an owner's partial update with a non-empty field set changes exactly
the supplied fields of that product (omitted fields keep their values, other
products and all other tables are untouched); an empty field set is rejected
with the 400 response and the state is unchanged. -/
theorem update_product_frame (db : DB) (u pid : Nat) (b : UpdateBody)
    (prod : Product)
    (hfind : db.products.find? (fun p => p.id == pid) = some prod)
    (howner : prod.user_id = u) :
    (b.isEmpty = true →
        update_product db u pid b = (db, .nothingToUpdate) ∧
        UpdateResp.status .nothingToUpdate = 400) ∧
    (b.isEmpty = false →
        (update_product db u pid b).2 = .updated ∧
        (update_product db u pid b).1.products.find? (fun p => p.id == pid) =
          some (applyUpdate prod b) ∧
        (update_product db u pid b).1.products.filter (fun p => !(p.id == pid)) =
          db.products.filter (fun p => !(p.id == pid)) ∧
        (update_product db u pid b).1.users = db.users ∧
        (update_product db u pid b).1.cart = db.cart ∧
        (update_product db u pid b).1.orders = db.orders ∧
        (update_product db u pid b).1.order_items = db.order_items) ∧
    (∀ p : Product, ∀ bb : UpdateBody,
      (applyUpdate p bb).id = p.id ∧ (applyUpdate p bb).user_id = p.user_id ∧
      (bb.title = none → (applyUpdate p bb).title = p.title) ∧
      (∀ v, bb.title = some v → (applyUpdate p bb).title = v) ∧
      (bb.description = none → (applyUpdate p bb).description = p.description) ∧
      (∀ v, bb.description = some v → (applyUpdate p bb).description = v) ∧
      (bb.price = none → (applyUpdate p bb).price = p.price) ∧
      (∀ v, bb.price = some v → (applyUpdate p bb).price = v) ∧
      (bb.category = none → (applyUpdate p bb).category = p.category) ∧
      (∀ v, bb.category = some v → (applyUpdate p bb).category = v) ∧
      (bb.image = none → (applyUpdate p bb).image = p.image) ∧
      (∀ v, bb.image = some v → (applyUpdate p bb).image = v)) := by
  refine ⟨?_, ?_, ?_⟩
  · intro hb
    refine ⟨?_, rfl⟩
    simp only [update_product, hfind]
    simp [howner, hb]
  · intro hb
    have hu : update_product db u pid b =
        ({ db with products :=
             db.products.map (fun p => if p.id == pid then applyUpdate p b else p) },
         .updated) := by
      simp only [update_product, hfind]
      simp [howner, hb]
    rw [hu]
    exact ⟨rfl, find?_map_applyUpdate db.products pid b prod hfind,
      filter_map_applyUpdate db.products pid b, rfl, rfl, rfl, rfl⟩
  · intro p bb
    refine ⟨rfl, rfl, ?_, ?_, ?_, ?_, ?_, ?_, ?_, ?_, ?_, ?_⟩ <;>
      first
        | (intro h; simp [applyUpdate, h])
        | (intro v h; simp [applyUpdate, h])

/-- Witness for C8: updating only the price of product 1 keeps every other
field and every other table intact. -/
theorem update_product_frame_witness :
    (update_product dbC4 7 1 bodyC8).2 = .updated ∧
    (update_product dbC4 7 1 bodyC8).1.products.find? (fun p => p.id == 1) =
      some (applyUpdate prodC4 bodyC8) ∧
    (applyUpdate prodC4 bodyC8).price = 9 ∧
    (applyUpdate prodC4 bodyC8).title = prodC4.title :=
  ⟨((update_product_frame dbC4 7 1 bodyC8 prodC4 (by decide) (by decide)).2.1
      (by decide)).1,
   ((update_product_frame dbC4 7 1 bodyC8 prodC4 (by decide) (by decide)).2.1
      (by decide)).2.1,
   ((update_product_frame dbC4 7 1 bodyC8 prodC4 (by decide) (by decide)).2.2
      prodC4 bodyC8).2.2.2.2.2.2.2.1 9 rfl,
   ((update_product_frame dbC4 7 1 bodyC8 prodC4 (by decide) (by decide)).2.2
      prodC4 bodyC8).2.2.1 rfl⟩

/-- C7 (amended): a valid product creation stores the supplied price as given
(with no non-negativity coercion) and stores the authenticated user as owner,
ignoring any client-supplied `user_id` field. -/
theorem create_product_owner_and_price (db : DB) (current_user : Nat)
    (b : CreateBody) (pr : Int)
    (ht : py_strip b.title ≠ "") (hp : b.price = some pr) :
    (∃ prod,
      create_product db current_user b =
        ({ db with products := db.products ++ [prod]
                   next_product_id := db.next_product_id + 1 },
         .created prod.id) ∧
      prod.user_id = current_user ∧ prod.price = pr ∧
      prod.id = db.next_product_id) ∧
    (∀ o : Option Nat,
      create_product db current_user { b with user_id := o } =
        create_product db current_user b) := by
  constructor
  · refine ⟨{ id := db.next_product_id, user_id := current_user
              title := py_strip b.title, description := py_strip b.description
              price := pr, category := py_strip b.category
              image := py_strip b.image }, ?_, rfl, rfl, rfl⟩
    simp only [create_product, hp]
    simp [ht]
  · intro o
    cases b
    rfl

/-- Witness for C7: user 9 creates a product with price 5 while the request
body claims `user_id = 42`; the stored owner is 9. -/
theorem create_product_owner_and_price_witness :
    (∃ prod,
      create_product dbC7 9 bodyC7 =
        ({ dbC7 with products := dbC7.products ++ [prod]
                     next_product_id := dbC7.next_product_id + 1 },
         .created prod.id) ∧
      prod.user_id = 9 ∧ prod.price = 5 ∧ prod.id = dbC7.next_product_id) ∧
    (∀ o : Option Nat,
      create_product dbC7 9 { bodyC7 with user_id := o } =
        create_product dbC7 9 bodyC7) :=
  create_product_owner_and_price dbC7 9 bodyC7 5 (by decide) rfl

/-- Counterexample to C7 as stated: a create request with price `-5` passes
validation and the stored price is `-5`, a negative value. -/
theorem create_product_negative_price_cx :
    (create_product dbC7 1
        { title := "x", description := "", price := some (-5), category := ""
          image := "", user_id := some 42 }).1.products =
      [{ id := 1, user_id := 1, title := "x", description := "", price := -5
         category := "", image := "" }] ∧
    ((-5 : Int) < 0) := by
  decide

/-- The quantity bump of the `UPDATE cart SET quantity = quantity + q WHERE
id = i` statement never changes a row's id. -/
theorem bump_id (c : CartEntry) (i : Nat) (q : Int) :
    (if c.id == i then { c with quantity := c.quantity + q } else c).id = c.id := by
  split <;> rfl

/-- The quantity bump never changes a row's user id. -/
theorem bump_user (c : CartEntry) (i : Nat) (q : Int) :
    (if c.id == i then { c with quantity := c.quantity + q } else c).user_id =
      c.user_id := by
  split <;> rfl

/-- The quantity bump never changes a row's product id. -/
theorem bump_product (c : CartEntry) (i : Nat) (q : Int) :
    (if c.id == i then { c with quantity := c.quantity + q } else c).product_id =
      c.product_id := by
  split <;> rfl

/-- In a cart with at most one row per (user, product), the rows matching an
existing row's key are exactly that row. -/
theorem cart_filter_eq_single {l : List CartEntry} {e : CartEntry} {u pid : Nat}
    (hp : l.Pairwise (fun a b => ¬(a.user_id = b.user_id ∧ a.product_id = b.product_id)))
    (he : e ∈ l) (hkey : (e.user_id == u && e.product_id == pid) = true) :
    l.filter (fun c => c.user_id == u && c.product_id == pid) = [e] := by
  have hkey2 : e.user_id = u ∧ e.product_id = pid := by
    simpa [Bool.and_eq_true, beq_iff_eq] using hkey
  induction l with
  | nil => cases he
  | cons a l ih =>
      rw [List.pairwise_cons] at hp
      rcases List.mem_cons.mp he with rfl | hmem
      · rw [List.filter_cons_of_pos
          (p := fun c : CartEntry => c.user_id == u && c.product_id == pid) hkey]
        have hnil : l.filter (fun c => c.user_id == u && c.product_id == pid) = [] := by
          rw [List.filter_eq_nil_iff]
          intro c hc
          have hne := hp.1 c hc
          simp only [Bool.and_eq_true, beq_iff_eq]
          rintro ⟨h1, h2⟩
          exact hne ⟨hkey2.1.trans h1.symm, hkey2.2.trans h2.symm⟩
        rw [hnil]
      · by_cases hak : (a.user_id == u && a.product_id == pid) = true
        · exfalso
          simp only [Bool.and_eq_true, beq_iff_eq] at hak
          exact hp.1 e hmem ⟨hak.1.trans hkey2.1.symm, hak.2.trans hkey2.2.symm⟩
        · rw [List.filter_cons_of_neg
            (p := fun c : CartEntry => c.user_id == u && c.product_id == pid) hak]
          exact ih hp.2 hmem

/-- The quantity bump commutes with filtering by a (user, product) key,
because it leaves both key fields unchanged. -/
theorem filter_key_map_bump (l : List CartEntry) (i : Nat) (q : Int) (u pid : Nat) :
    (l.map (fun c => if c.id == i then { c with quantity := c.quantity + q } else c)).filter
        (fun c => c.user_id == u && c.product_id == pid) =
      (l.filter (fun c => c.user_id == u && c.product_id == pid)).map
        (fun c => if c.id == i then { c with quantity := c.quantity + q } else c) := by
  induction l with
  | nil => rfl
  | cons a l ih =>
      simp only [List.map_cons]
      by_cases hk : (a.user_id == u && a.product_id == pid) = true
      · rw [List.filter_cons_of_pos
            (p := fun c : CartEntry => c.user_id == u && c.product_id == pid)
            (by simp only [bump_user, bump_product]; exact hk),
          List.filter_cons_of_pos
            (p := fun c : CartEntry => c.user_id == u && c.product_id == pid) hk,
          List.map_cons, ih]
      · rw [List.filter_cons_of_neg
            (p := fun c : CartEntry => c.user_id == u && c.product_id == pid)
            (by simp only [bump_user, bump_product]; exact hk),
          List.filter_cons_of_neg
            (p := fun c : CartEntry => c.user_id == u && c.product_id == pid) hk,
          ih]

/-- When row ids are distinct and `e` is the row being bumped, every row NOT
matching the (user, product) key of `e` is left exactly as it was. -/
theorem filter_not_key_map_bump (l : List CartEntry) (e : CartEntry) (q : Int)
    (u pid : Nat) (hnd : (l.map CartEntry.id).Nodup) (he : e ∈ l)
    (hkey : (e.user_id == u && e.product_id == pid) = true) :
    (l.map (fun c => if c.id == e.id then { c with quantity := c.quantity + q } else c)).filter
        (fun c => !(c.user_id == u && c.product_id == pid)) =
      l.filter (fun c => !(c.user_id == u && c.product_id == pid)) := by
  induction l with
  | nil => rfl
  | cons a l ih =>
      rw [List.map_cons, List.nodup_cons] at hnd
      simp only [List.map_cons]
      rcases List.mem_cons.mp he with rfl | hmem
      · have hrest : l.map (fun c =>
            if c.id == e.id then { c with quantity := c.quantity + q } else c) = l := by
          have hptw : ∀ c ∈ l, (if c.id == e.id then
              { c with quantity := c.quantity + q } else c) = id c := by
            intro c hc
            have hne : c.id ≠ e.id := by
              intro hidc
              exact hnd.1 (hidc ▸ List.mem_map_of_mem CartEntry.id hc)
            simp [hne]
          rw [List.map_congr_left hptw, List.map_id]
        rw [hrest]
        have hbump : (if e.id == e.id then
            { e with quantity := e.quantity + q } else e) =
            { e with quantity := e.quantity + q } := by simp
        rw [hbump,
          List.filter_cons_of_neg
            (p := fun c : CartEntry => !(c.user_id == u && c.product_id == pid))
            (by simp [hkey]),
          List.filter_cons_of_neg
            (p := fun c : CartEntry => !(c.user_id == u && c.product_id == pid))
            (by simp [hkey])]
      · have hane : a.id ≠ e.id := by
          intro hid
          exact hnd.1 (hid ▸ List.mem_map_of_mem CartEntry.id hmem)
        have hhead : (if a.id == e.id then
            { a with quantity := a.quantity + q } else a) = a := by simp [hane]
        rw [hhead]
        by_cases hak : (!(a.user_id == u && a.product_id == pid)) = true
        · rw [List.filter_cons_of_pos
              (p := fun c : CartEntry => !(c.user_id == u && c.product_id == pid)) hak,
            List.filter_cons_of_pos
              (p := fun c : CartEntry => !(c.user_id == u && c.product_id == pid)) hak,
            ih hnd.2 hmem]
        · rw [List.filter_cons_of_neg
              (p := fun c : CartEntry => !(c.user_id == u && c.product_id == pid)) hak,
            List.filter_cons_of_neg
              (p := fun c : CartEntry => !(c.user_id == u && c.product_id == pid)) hak,
            ih hnd.2 hmem]

/-- `add_to_cart` preserves the cart invariants; in particular there is
always at most one cart row per (user, product). -/
theorem add_to_cart_preserves_CartOk (db : DB) (u : Nat) (pid : Option Nat)
    (q : Int) (h : CartOk db) : CartOk (add_to_cart db u pid q).1 := by
  obtain ⟨hlt, hnd, hpw⟩ := h
  rcases pid with _ | p
  · exact ⟨hlt, hnd, hpw⟩
  simp only [add_to_cart]
  by_cases hp0 : p = 0
  · rw [if_pos hp0]
    exact ⟨hlt, hnd, hpw⟩
  rw [if_neg hp0]
  cases hfind : db.cart.find? (fun c => c.user_id == u && c.product_id == p) with
  | some e =>
      refine ⟨?_, ?_, ?_⟩
      · intro c hc
        rcases List.mem_map.mp hc with ⟨c0, hc0, rfl⟩
        rw [bump_id]
        exact hlt c0 hc0
      · rw [List.map_map]
        have : (CartEntry.id ∘ fun c =>
            if c.id == e.id then { c with quantity := c.quantity + q } else c) =
            CartEntry.id := by
          funext c
          exact bump_id c e.id q
        rw [this]
        exact hnd
      · rw [List.pairwise_map]
        refine hpw.imp ?_
        intro a b hab
        rw [bump_user, bump_user, bump_product, bump_product]
        exact hab
  | none =>
      have hnone := List.find?_eq_none.mp hfind
      refine ⟨?_, ?_, ?_⟩
      · intro c hc
        rcases List.mem_append.mp hc with hc1 | hc2
        · exact Nat.lt_succ_of_lt (hlt c hc1)
        · rcases List.mem_singleton.mp hc2 with rfl
          exact Nat.lt_succ_self _
      · rw [List.map_append, List.nodup_append]
        refine ⟨hnd, List.nodup_singleton _, ?_⟩
        intro i hi hi2
        rcases List.mem_map.mp hi with ⟨c0, hc0, rfl⟩
        rcases List.mem_singleton.mp hi2 with h2
        exact absurd (h2 ▸ hlt c0 hc0) (lt_irrefl _)
      · rw [List.pairwise_append]
        refine ⟨hpw, List.pairwise_singleton _ _, ?_⟩
        intro a ha b hb
        rcases List.mem_singleton.mp hb with rfl
        rintro ⟨h1, h2⟩
        exact absurd (by simp [h1, h2]) (hnone a ha)

/-- C5 (amended): `add_to_cart` on an existing (user, product) row adds the
given amount to that row's quantity (never overwriting it) and leaves every
other row untouched, so with a non-negative amount the quantity never
decreases; otherwise it inserts a single new row; at most one row per
(user, product) ever exists; and adding q1 then q2 from scratch leaves
exactly one row for the pair with quantity q1 + q2 (so 2 then 3 gives 5). -/
theorem add_to_cart_accumulates (db : DB) (u pid : Nat) (q q1 q2 : Int)
    (hpid : pid ≠ 0) (hok : CartOk db) :
    CartOk (add_to_cart db u (some pid) q).1 ∧
    (∀ e, db.cart.find? (fun c => c.user_id == u && c.product_id == pid) = some e →
      ((add_to_cart db u (some pid) q).1.cart.filter
          (fun c => c.user_id == u && c.product_id == pid) =
        [{ e with quantity := e.quantity + q }]) ∧
      ((add_to_cart db u (some pid) q).1.cart.filter
          (fun c => !(c.user_id == u && c.product_id == pid)) =
        db.cart.filter (fun c => !(c.user_id == u && c.product_id == pid))) ∧
      (0 ≤ q → e.quantity ≤ e.quantity + q)) ∧
    (db.cart.find? (fun c => c.user_id == u && c.product_id == pid) = none →
      (add_to_cart db u (some pid) q).1.cart =
        db.cart ++ [{ id := db.next_cart_id, user_id := u, product_id := pid
                      quantity := q }]) ∧
    (db.cart.find? (fun c => c.user_id == u && c.product_id == pid) = none →
      (add_to_cart (add_to_cart db u (some pid) q1).1 u (some pid) q2).1.cart.filter
          (fun c => c.user_id == u && c.product_id == pid) =
        [{ id := db.next_cart_id, user_id := u, product_id := pid
           quantity := q1 + q2 }]) := by
  obtain ⟨hlt, hnd, hpw⟩ := hok
  have hinc : ∀ q3 : Int, ∀ e,
      db.cart.find? (fun c => c.user_id == u && c.product_id == pid) = some e →
      (add_to_cart db u (some pid) q3).1.cart =
        db.cart.map (fun c =>
          if c.id == e.id then { c with quantity := c.quantity + q3 } else c) := by
    intro q3 e hfind
    simp only [add_to_cart]
    rw [if_neg hpid, hfind]
  have hins : ∀ q3 : Int,
      db.cart.find? (fun c => c.user_id == u && c.product_id == pid) = none →
      (add_to_cart db u (some pid) q3).1.cart =
        db.cart ++ [{ id := db.next_cart_id, user_id := u, product_id := pid
                      quantity := q3 }] ∧
      (add_to_cart db u (some pid) q3).1.next_cart_id = db.next_cart_id + 1 := by
    intro q3 hfind
    simp only [add_to_cart]
    rw [if_neg hpid, hfind]
    exact ⟨rfl, rfl⟩
  refine ⟨add_to_cart_preserves_CartOk db u (some pid) q ⟨hlt, hnd, hpw⟩,
    ?_, fun hfind => (hins q hfind).1, ?_⟩
  · intro e hfind
    have hmem := List.mem_of_find?_eq_some hfind
    have hkey := List.find?_some hfind
    rw [hinc q e hfind]
    refine ⟨?_, filter_not_key_map_bump db.cart e q u pid hnd hmem hkey, fun h0 => by omega⟩
    rw [filter_key_map_bump, cart_filter_eq_single hpw hmem hkey]
    simp
  · intro hfind
    obtain ⟨hcart1, hnext1⟩ := hins q1 hfind
    set db1 := (add_to_cart db u (some pid) q1).1 with hdb1
    set row : CartEntry := { id := db.next_cart_id, user_id := u, product_id := pid
                             quantity := q1 } with hrow
    have hfind1 : db1.cart.find? (fun c => c.user_id == u && c.product_id == pid) =
        some row := by
      rw [hcart1, List.find?_append, hfind]
      simp [Option.none_or, hrow]
    have hok1 : CartOk db1 :=
      add_to_cart_preserves_CartOk db u (some pid) q1 ⟨hlt, hnd, hpw⟩
    obtain ⟨hlt1, hnd1, hpw1⟩ := hok1
    have hmem1 := List.mem_of_find?_eq_some hfind1
    have hkey1 := List.find?_some hfind1
    have hinc1 : (add_to_cart db1 u (some pid) q2).1.cart =
        db1.cart.map (fun c =>
          if c.id == row.id then { c with quantity := c.quantity + q2 } else c) := by
      simp only [add_to_cart]
      rw [if_neg hpid, hfind1]
    rw [hinc1, filter_key_map_bump, cart_filter_eq_single hpw1 hmem1 hkey1]
    simp [hrow]

/-- Counterexample to C5 as stated: `add_to_cart` with amount `-3` on a row
with quantity 5 DECREASES the quantity to 2, refuting "never decreases". -/
theorem add_to_cart_negative_decreases_cx :
    (add_to_cart dbC5e 1 (some 10) (-3)).1.cart =
      [{ id := 1, user_id := 1, product_id := 10, quantity := 2 }] ∧
    ((2 : Int) < 5) := by
  decide

/-- Witness for C5: from an empty cart, adding quantity 2 then quantity 3 for
(user 1, product 10) leaves exactly one row with quantity 5; and on the
one-row state, adding 4 increments 5 to 9 without touching anything else. -/
theorem add_to_cart_accumulates_witness :
    ((add_to_cart (add_to_cart dbEmpty 1 (some 10) 2).1 1 (some 10) 3).1.cart.filter
        (fun c => c.user_id == 1 && c.product_id == 10) =
      [{ id := 1, user_id := 1, product_id := 10, quantity := 5 }]) ∧
    ((add_to_cart dbC5e 1 (some 10) 4).1.cart.filter
        (fun c => c.user_id == 1 && c.product_id == 10) =
      [{ id := 1, user_id := 1, product_id := 10, quantity := 9 }]) :=
  ⟨(add_to_cart_accumulates dbEmpty 1 10 0 2 3 (by decide)
      ⟨by decide, by decide, by decide⟩).2.2.2 (by decide),
   ((add_to_cart_accumulates dbC5e 1 10 4 0 0 (by decide)
      ⟨by decide, by decide, by decide⟩).2.1
      { id := 1, user_id := 1, product_id := 10, quantity := 5 } (by decide)).1⟩

/-- If the failure plan strikes inside the item-insert loop, the loop raises
and returns nothing. -/
theorem insertItems_fail (items : List CartJoinRow) (work : DB) (oid : Nat)
    (j k : Nat) (h1 : k ≤ j) (h2 : j < k + items.length) :
    insertItems work oid items (some j) k = none := by
  induction items generalizing work k with
  | nil => simp at h2; omega
  | cons it rest ih =>
      simp only [insertItems]
      by_cases hj : j = k
      · have hstep : stepOk (some j) k = false := by simp [stepOk, hj]
        rw [hstep]
        simp
      · have hstep : stepOk (some j) k = true := by simp [stepOk, hj]
        rw [hstep]
        simp only [if_true]
        exact ih _ _ (by omega) (by simpa [List.length_cons, Nat.add_comm,
          Nat.add_left_comm] using h2)

/-- If the failure plan strikes nowhere in the loop's write range, the loop
completes, appending exactly one order item per joined cart row. -/
theorem insertItems_ok (items : List CartJoinRow) (work : DB) (oid : Nat)
    (failAt : Option Nat) (k : Nat)
    (h : ∀ j, failAt = some j → j < k ∨ k + items.length ≤ j) :
    insertItems work oid items failAt k =
      some ({ work with order_items := work.order_items ++ items.map (mkOrderItem oid) },
        k + items.length) := by
  induction items generalizing work k with
  | nil => simp [insertItems]
  | cons it rest ih =>
      have hstep : stepOk failAt k = true := by
        cases failAt with
        | none => rfl
        | some j =>
            have := h j rfl
            simp only [stepOk, Bool.not_eq_true', beq_eq_false_iff_ne]
            simp only [List.length_cons] at this
            omega
      simp only [insertItems, hstep, if_true]
      rw [ih _ _ (fun j hj => by
        have := h j hj
        simp only [List.length_cons] at this
        omega)]
      simp [List.append_assoc, List.length_cons]
      omega

/-- C1: on any execution of checkout in which the transaction's writes
(create the order, create its items, clear the cart — then commit) raise
before the commit completes, the connection is closed uncommitted, so the
persisted database is exactly the pre-checkout state (no Order, no OrderItem,
cart untouched) and the surfaced response is the 500 server error (the
`CheckoutFailed` class). -/
theorem checkout_atomic_rollback (db : DB) (u now k : Nat)
    (hne : cartJoin db u ≠ [])
    (hk : k ≤ (cartJoin db u).length + 2) :
    checkoutRun db u now (some k) = (db, .serverError) ∧
    CheckoutResp.serverError.status = 500 := by
  refine ⟨?_, rfl⟩
  have hempty : (cartJoin db u).isEmpty = false := by
    cases hcj : cartJoin db u with
    | nil => exact absurd hcj hne
    | cons a l => rfl
  simp only [checkoutRun, hempty, Bool.false_eq_true, if_false]
  by_cases hk0 : k = 0
  · have hstep : stepOk (some k) 0 = false := by simp [stepOk, hk0]
    rw [hstep]
    simp
  · have hstep : stepOk (some k) 0 = true := by simp [stepOk, hk0]
    rw [hstep]
    simp only [if_true]
    by_cases hkle : k ≤ (cartJoin db u).length
    · rw [insertItems_fail _ _ _ _ _ (by omega) (by omega)]
    · rw [insertItems_ok _ _ _ _ _ (fun j hj => by cases hj; omega)]
      dsimp only
      by_cases hk1 : k = (cartJoin db u).length + 1
      · have hstep1 : stepOk (some k) (1 + (cartJoin db u).length) = false := by
          simp [stepOk]; omega
        rw [hstep1]
        simp
      · have hstep1 : stepOk (some k) (1 + (cartJoin db u).length) = true := by
          simp [stepOk]; omega
        have hstep2 : stepOk (some k) (1 + (cartJoin db u).length + 1) = false := by
          simp [stepOk]; omega
        rw [hstep1]
        simp only [if_true]
        rw [hstep2]
        simp

/-- Witness for C1: with a failure injected at each write of the transaction
in turn, checkout on the concrete state returns the 500 response and the
database is unchanged. -/
theorem checkout_atomic_rollback_witness :
    checkoutRun dbC2 1 100 (some 0) = (dbC2, .serverError) ∧
    checkoutRun dbC2 1 100 (some 1) = (dbC2, .serverError) ∧
    checkoutRun dbC2 1 100 (some 2) = (dbC2, .serverError) ∧
    checkoutRun dbC2 1 100 (some 3) = (dbC2, .serverError) :=
  ⟨(checkout_atomic_rollback dbC2 1 100 0 (by decide) (by decide)).1,
   (checkout_atomic_rollback dbC2 1 100 1 (by decide) (by decide)).1,
   (checkout_atomic_rollback dbC2 1 100 2 (by decide) (by decide)).1,
   (checkout_atomic_rollback dbC2 1 100 3 (by decide) (by decide)).1⟩

/-- On the exception-free path with a non-empty joined cart, checkout commits
exactly the transaction's writes. -/
theorem checkout_success_eq (db : DB) (u now : Nat) (hne : cartJoin db u ≠ []) :
    checkout db u now =
      ({ db with
           orders := db.orders ++
             [{ id := db.next_order_id, user_id := u, created_at := now }]
           order_items := db.order_items ++
             (cartJoin db u).map (mkOrderItem db.next_order_id)
           cart := db.cart.filter (fun c => !(c.user_id == u))
           next_order_id := db.next_order_id + 1 },
       .complete db.next_order_id) := by
  have hempty : (cartJoin db u).isEmpty = false := by
    cases hcj : cartJoin db u with
    | nil => exact absurd hcj hne
    | cons a l => rfl
  simp only [checkout, checkoutRun, hempty, Bool.false_eq_true, if_false]
  rw [insertItems_ok _ _ _ _ _ (fun j hj => by cases hj)]
  rfl

/-- Rows surviving the `DELETE FROM cart WHERE user_id = u` filter never
belong to user `u`. -/
theorem filter_user_of_filter_not (l : List CartEntry) (u : Nat) :
    (l.filter (fun c => !(c.user_id == u))).filter (fun c => c.user_id == u) = [] := by
  rw [List.filter_filter]
  apply List.filter_eq_nil_iff.mpr
  intro c hc
  simp

/-- `update_product` never touches the `order_items` table. -/
theorem update_product_order_items (db : DB) (v pid : Nat) (b : UpdateBody) :
    (update_product db v pid b).1.order_items = db.order_items := by
  unfold update_product
  split
  · rfl
  · split
    · rfl
    · split
      · rfl
      · rfl

/-- C2 (amended): a successful checkout creates exactly one new Order whose
OrderItems carry the product ids, quantities, and current product prices of
the pre-checkout cart rows that reference an existing product (orphaned rows
contribute nothing — see C10); all of the user's cart rows are deleted so a
subsequent viewCart is empty; and no later product update (price included)
changes the snapshotted order items. -/
theorem checkout_creates_order_snapshot (db : DB) (u now : Nat)
    (hne : cartJoin db u ≠ [])
    (horders : ∀ o ∈ db.orders, o.id < db.next_order_id) :
    (checkout db u now).2 = .complete db.next_order_id ∧
    (checkout db u now).1.orders =
      db.orders ++ [{ id := db.next_order_id, user_id := u, created_at := now }] ∧
    (∀ o ∈ db.orders, o.id ≠ db.next_order_id) ∧
    (checkout db u now).1.order_items =
      db.order_items ++ (cartJoin db u).map (mkOrderItem db.next_order_id) ∧
    view_cart (checkout db u now).1 u = [] ∧
    (∀ v pid b, (update_product (checkout db u now).1 v pid b).1.order_items =
        (checkout db u now).1.order_items) := by
  rw [checkout_success_eq db u now hne]
  refine ⟨rfl, rfl, ?_, rfl, ?_, ?_⟩
  · intro o ho
    exact Nat.ne_of_lt (horders o ho)
  · simp only [view_cart]
    rw [filter_user_of_filter_not]
    rfl
  · intro v pid b
    exact update_product_order_items _ v pid b

/-- Witness for C2 on the concrete state: checkout of user 1 creates order 1
with the snapshot of the joined cart, and viewCart afterwards is empty. -/
theorem checkout_creates_order_snapshot_witness :
    (checkout dbC2 1 100).2 = .complete dbC2.next_order_id ∧
    (checkout dbC2 1 100).1.order_items =
      dbC2.order_items ++ (cartJoin dbC2 1).map (mkOrderItem dbC2.next_order_id) ∧
    view_cart (checkout dbC2 1 100).1 1 = [] :=
  ⟨(checkout_creates_order_snapshot dbC2 1 100 (by decide) (by decide)).1,
   (checkout_creates_order_snapshot dbC2 1 100 (by decide) (by decide)).2.2.2.1,
   (checkout_creates_order_snapshot dbC2 1 100 (by decide) (by decide)).2.2.2.2.1⟩

/-- Counterexample to C2 as stated: the pre-checkout cart rows of user 1 have
product ids 10 and 99, but product 99 no longer exists, so the successful
checkout's OrderItems carry product id 10 only — they do not have the same
product ids as the pre-checkout cart entries. -/
theorem checkout_orphan_cart_cx :
    dbC2.cart.map CartEntry.product_id = [10, 99] ∧
    (checkout dbC2 1 100).2 = .complete 1 ∧
    (checkout dbC2 1 100).1.order_items.map OrderItem.product_id = [10] := by
  decide

/-- C10: a successful checkout deletes ALL of the user's cart rows, orphaned
ones included; every joined cart row (hence every created OrderItem) and
every viewCart row references an existing product, so orphaned rows are
invisible to both; and a cart whose rows are all orphaned joins to nothing,
so checkout treats it as empty and changes nothing. -/
theorem checkout_orphan_handling (db : DB) (u now : Nat) :
    (cartJoin db u ≠ [] →
      (checkout db u now).1.cart.filter (fun c => c.user_id == u) = []) ∧
    (∀ r ∈ cartJoin db u, ∃ p ∈ db.products, p.id = r.product_id) ∧
    (∀ r ∈ view_cart db u, ∃ p ∈ db.products, p.id = r.product_id) ∧
    ((∀ c ∈ db.cart, c.user_id = u →
        db.products.find? (fun p => p.id == c.product_id) = none) →
      cartJoin db u = [] ∧ checkout db u now = (db, .cartEmpty) ∧
      CheckoutResp.cartEmpty.status = 400) := by
  refine ⟨?_, ?_, ?_, ?_⟩
  · intro hne
    rw [checkout_success_eq db u now hne]
    exact filter_user_of_filter_not db.cart u
  · intro r hr
    rcases List.mem_filterMap.mp hr with ⟨c, hc, hfc⟩
    rcases Option.map_eq_some'.mp hfc with ⟨p, hp, hrp⟩
    refine ⟨p, List.mem_of_find?_eq_some hp, ?_⟩
    have := List.find?_some hp
    simp only [beq_iff_eq] at this
    rw [← hrp]
    exact this
  · intro r hr
    rcases List.mem_filterMap.mp hr with ⟨c, hc, hfc⟩
    rcases Option.map_eq_some'.mp hfc with ⟨p, hp, hrp⟩
    refine ⟨p, List.mem_of_find?_eq_some hp, ?_⟩
    rw [← hrp]
  · intro horphan
    have hjoin : cartJoin db u = [] := by
      apply List.filterMap_eq_nil_iff.mpr
      intro c hc
      have hcu : c.user_id = u := by
        have := (List.mem_filter.mp hc).2
        simpa using this
      rw [horphan c (List.mem_filter.mp hc).1 hcu]
      rfl
    refine ⟨hjoin, ?_, rfl⟩
    simp [checkout, checkoutRun, hjoin]

/-- Witness for C10: on the mixed state, checkout removes both the valid and
the orphaned cart row of user 1; on the orphan-only state, checkout reports
an empty cart and leaves the database untouched. -/
theorem checkout_orphan_handling_witness :
    (checkout dbC2 1 100).1.cart.filter (fun c => c.user_id == 1) = [] ∧
    (cartJoin dbC10 1 = [] ∧ checkout dbC10 1 100 = (dbC10, .cartEmpty) ∧
      CheckoutResp.cartEmpty.status = 400) :=
  ⟨(checkout_orphan_handling dbC2 1 100).1 (by decide),
   (checkout_orphan_handling dbC10 1 100).2.2.2 (by decide)⟩

/-- `delete_product` never touches the `order_items` table. -/
theorem delete_product_order_items (db : DB) (v pid : Nat) :
    (delete_product db v pid).1.order_items = db.order_items := by
  unfold delete_product
  split
  · rfl
  · split
    · rfl
    · rfl

/-- Every row contributed by an order carries that order's id and
creation timestamp. -/
theorem orderRows_fields (db : DB) (o : Order) (r : PurchaseRow)
    (hr : r ∈ orderRows db o) : r.order_id = o.id ∧ r.created_at = o.created_at := by
  rcases List.mem_filterMap.mp hr with ⟨oi, _, hf⟩
  rcases Option.map_eq_some'.mp hf with ⟨p, _, hrp⟩
  rw [← hrp]
  exact ⟨rfl, rfl⟩

/-- The rows of `purchases` are ordered newest order first: along the output,
creation timestamps never increase. -/
theorem purchases_sorted (db : DB) (u : Nat) :
    (purchases db u).Pairwise (fun a b => b.created_at ≤ a.created_at) := by
  rw [purchases, List.pairwise_flatMap]
  constructor
  · intro o ho
    apply List.pairwise_of_forall_mem_list
    intro x hx y hy
    rw [(orderRows_fields db o x hx).2, (orderRows_fields db o y hy).2]
  · have htrans : ∀ (a b c : Order),
        (decide (b.created_at ≤ a.created_at)) = true →
        (decide (c.created_at ≤ b.created_at)) = true →
        (decide (c.created_at ≤ a.created_at)) = true := by
      intro a b c h1 h2
      simp only [decide_eq_true_eq] at h1 h2 ⊢
      omega
    have htotal : ∀ (a b : Order),
        ((decide (b.created_at ≤ a.created_at)) ||
          (decide (a.created_at ≤ b.created_at))) = true := by
      intro a b
      simp only [Bool.or_eq_true, decide_eq_true_eq]
      omega
    have hs := @List.sorted_mergeSort Order
      (fun a b => decide (b.created_at ≤ a.created_at)) htrans htotal
      (db.orders.filter (fun o => o.user_id == u))
    refine hs.imp ?_
    intro o1 o2 h12 x hx y hy
    rw [(orderRows_fields db o1 x hx).2, (orderRows_fields db o2 y hy).2]
    exact of_decide_eq_true h12

/-- A row is in `purchases db u` exactly when it is the joined image of an
order item of one of the user's orders whose product still exists, carrying
the item's snapshotted quantity and price. -/
theorem purchases_mem (db : DB) (u : Nat) (r : PurchaseRow) :
    r ∈ purchases db u ↔
      ∃ o ∈ db.orders, o.user_id = u ∧
        ∃ oi ∈ db.order_items, oi.order_id = o.id ∧
          ∃ p, db.products.find? (fun q => q.id == oi.product_id) = some p ∧
            r = { order_id := o.id, created_at := o.created_at
                  product_id := oi.product_id, title := p.title, image := p.image
                  quantity := oi.quantity, price := oi.price } := by
  rw [purchases, List.mem_flatMap]
  constructor
  · rintro ⟨o, ho, hr⟩
    rw [List.mem_mergeSort, List.mem_filter] at ho
    rcases List.mem_filterMap.mp hr with ⟨oi, hoi, hf⟩
    rcases Option.map_eq_some'.mp hf with ⟨p, hp, hrp⟩
    exact ⟨o, ho.1, by simpa using ho.2, oi, (List.mem_filter.mp hoi).1,
      by simpa using (List.mem_filter.mp hoi).2, p, hp, hrp.symm⟩
  · rintro ⟨o, ho, hou, oi, hoi, hord, p, hp, rfl⟩
    refine ⟨o, ?_, ?_⟩
    · rw [List.mem_mergeSort, List.mem_filter]
      exact ⟨ho, by simpa using hou⟩
    · simp only [orderRows]
      apply List.mem_filterMap.mpr
      exact ⟨oi, List.mem_filter.mpr ⟨hoi, by simpa using hord⟩, by rw [hp]; rfl⟩

/-- C9 (amended): `purchaseHistory` returns, newest order first, exactly the
user's OrderItems whose product still exists, each annotated with its
snapshotted price and quantity; items whose product was deleted remain stored
in `order_items` (product deletion never touches them) but are omitted from
the `purchases` output by its inner join with `products`. -/
theorem purchases_snapshot_join (db : DB) (u : Nat) :
    (∀ v pid, (delete_product db v pid).1.order_items = db.order_items) ∧
    (purchases db u).Pairwise (fun a b => b.created_at ≤ a.created_at) ∧
    (∀ r : PurchaseRow, r ∈ purchases db u ↔
      ∃ o ∈ db.orders, o.user_id = u ∧
        ∃ oi ∈ db.order_items, oi.order_id = o.id ∧
          ∃ p, db.products.find? (fun q => q.id == oi.product_id) = some p ∧
            r = { order_id := o.id, created_at := o.created_at
                  product_id := oi.product_id, title := p.title, image := p.image
                  quantity := oi.quantity, price := oi.price }) :=
  ⟨fun v pid => delete_product_order_items db v pid,
   purchases_sorted db u,
   fun r => purchases_mem db u r⟩

/-- Counterexample to C9 as stated: user 1's purchase of product 99 appears
in `purchases` while the product exists, but after the owner deletes product
99 the order item — still stored in `order_items` — is no longer returned by
`purchases`, because of the inner join with `products`. -/
theorem purchases_deleted_product_cx :
    ({ order_id := 1, created_at := 100, product_id := 99, title := "t"
       image := "", quantity := 2, price := 5 } : PurchaseRow) ∈ purchases dbC9 1 ∧
    (delete_product dbC9 1 99).1.order_items =
      [{ order_id := 1, product_id := 99, quantity := 2, price := 5 }] ∧
    purchases (delete_product dbC9 1 99).1 1 = [] := by
  refine ⟨?_, by decide, ?_⟩
  · apply (purchases_mem dbC9 1 _).mpr
    exact ⟨{ id := 1, user_id := 1, created_at := 100 }, by decide, rfl,
      { order_id := 1, product_id := 99, quantity := 2, price := 5 }, by decide, rfl,
      { id := 99, user_id := 1, title := "t", description := "", price := 5
        category := "", image := "" }, by decide, rfl⟩
  · apply List.eq_nil_iff_forall_not_mem.mpr
    intro r hr
    rw [purchases_mem] at hr
    obtain ⟨o, ho, hou, oi, hoi, hord, p, hp, hr⟩ := hr
    have hprod : (delete_product dbC9 1 99).1.products = [] := by decide
    rw [hprod] at hp
    simp at hp

end App
